import Mathlib

/-!
Verification development for the modesetting binding library and its
constant-extraction shim.

The shim consists of three C translation units that re-export kernel-level
DRM ioctl command codes and pixel-format fourcc tags as named constants:
  * `src/unnamed/part_000` (first segment): a hand-expanded table of
    `MACRO_DRM_IOCTL_*` constants built directly from the `DRM_IO`/`DRM_IOWR`
    encoding macros;
  * `src/unnamed/part_001`: a second hand-expanded `MACRO_DRM_IOCTL_*` table
    mirroring the kernel header definitions;
  * `src/src/ffi/drm-shim.c`: `FFI_DRM_IOCTL_*` constants assigned from the
    kernel header macros themselves;
  * `src/unnamed/part_000` (third segment): `FFI_DRM_FORMAT_*` fourcc tags
    assigned from the kernel `drm_fourcc.h` macros.

The numeric values are fixed by the Linux `_IOC` ioctl-number encoding and by
the x86-64 sizes of the request structures named in each macro invocation;
both are embedded below.  The core binding layer (Device, MasterLock,
enumeration, dumb buffers, commit protocol) is not present in the sources, so
it is modelled from the specification further down.
-/

namespace Ioctl

/-- Linux asm-generic ioctl encoding: direction bits are shifted to bit 30,
the size field to bit 16, the type (magic) byte to bit 8, and the request
number occupies the low byte. -/
def ioc (dir typ nr size : Nat) : Nat :=
  (dir <<< 30) ||| (size <<< 16) ||| (typ <<< 8) ||| nr

/-- Direction value for an ioctl carrying no payload. -/
def dirNone : Nat := 0

/-- Direction value for an ioctl whose payload is written by the caller. -/
def dirWrite : Nat := 1

/-- Direction value for an ioctl whose payload is read back by the caller. -/
def dirRead : Nat := 2

/-- The DRM ioctl magic byte, the character code of a lower-case d. -/
def drmBase : Nat := 100

/-- Expansion of the C macro DRM_IO(nr): no payload. -/
def drmIoNone (nr : Nat) : Nat := ioc dirNone drmBase nr 0

/-- Expansion of the C macro DRM_IOR(nr, ty): read-only payload of the given
size. -/
def drmIoRead (nr size : Nat) : Nat := ioc dirRead drmBase nr size

/-- Expansion of the C macro DRM_IOW(nr, ty): write-only payload of the given
size. -/
def drmIoWrite (nr size : Nat) : Nat := ioc dirWrite drmBase nr size

/-- Expansion of the C macro DRM_IOWR(nr, ty): read-write payload of the
given size. -/
def drmIoReadWrite (nr size : Nat) : Nat := ioc (dirRead ||| dirWrite) drmBase nr size

end Ioctl

namespace CSize

/-! Sizes in bytes, on 64-bit Linux, of the request structures named in the
shim's macro invocations.  Each is the sum of its fields' sizes padded to the
structure's alignment, following the layouts in the kernel uapi headers the
shim includes. -/

/-- struct drm_mode_card_res: four u64 array pointers and eight u32 counts
and bounds. -/
def drm_mode_card_res : Nat := 64

/-- struct drm_mode_modeinfo: u32 clock, ten u16 timing fields, u32 vrefresh,
flags and type, and a 32-byte name. -/
def drm_mode_modeinfo : Nat := 68

/-- struct drm_mode_crtc: u64 connector-array pointer, seven u32 fields and
an embedded drm_mode_modeinfo. -/
def drm_mode_crtc : Nat := 104

/-- struct drm_mode_cursor: seven u32 fields. -/
def drm_mode_cursor : Nat := 28

/-- struct drm_mode_crtc_lut: two u32 fields and three u64 pointers. -/
def drm_mode_crtc_lut : Nat := 32

/-- struct drm_mode_get_encoder: five u32 fields. -/
def drm_mode_get_encoder : Nat := 20

/-- struct drm_mode_get_connector: four u64 array pointers and twelve u32
fields (counts, ids, connection, physical size, subpixel, padding). -/
def drm_mode_get_connector : Nat := 80

/-- struct drm_mode_mode_cmd: u32 connector id plus an embedded
drm_mode_modeinfo. -/
def drm_mode_mode_cmd : Nat := 72

/-- struct drm_mode_get_property: two u64 pointers, two u32 ids, a 32-byte
name and two u32 counts. -/
def drm_mode_get_property : Nat := 64

/-- struct drm_mode_connector_set_property: u64 value and two u32 ids. -/
def drm_mode_connector_set_property : Nat := 16

/-- struct drm_mode_get_blob: two u32 fields and a u64 data pointer. -/
def drm_mode_get_blob : Nat := 16

/-- struct drm_mode_fb_cmd: seven u32 fields. -/
def drm_mode_fb_cmd : Nat := 28

/-- unsigned int, the request type of the remove-framebuffer ioctl. -/
def unsigned_int : Nat := 4

/-- struct drm_mode_crtc_page_flip: four u32 fields and a u64 user-data
field. -/
def drm_mode_crtc_page_flip : Nat := 24

/-- struct drm_mode_fb_dirty_cmd: four u32 fields and a u64 clip-array
pointer. -/
def drm_mode_fb_dirty_cmd : Nat := 24

/-- struct drm_mode_create_dumb: six u32 fields and a u64 size. -/
def drm_mode_create_dumb : Nat := 32

/-- struct drm_mode_map_dumb: u32 handle, u32 pad and a u64 offset. -/
def drm_mode_map_dumb : Nat := 16

/-- struct drm_mode_destroy_dumb: a single u32 handle. -/
def drm_mode_destroy_dumb : Nat := 4

/-- struct drm_mode_get_plane_res: a u64 array pointer and a u32 count,
padded to 8-byte alignment. -/
def drm_mode_get_plane_res : Nat := 16

/-- struct drm_mode_get_plane: six u32 fields and a u64 format-array
pointer. -/
def drm_mode_get_plane : Nat := 32

/-- struct drm_mode_set_plane: twelve u32 fields. -/
def drm_mode_set_plane : Nat := 48

/-- struct drm_mode_fb_cmd2: five u32 header fields, three 4-element u32
arrays and a 4-element u64 modifier array. -/
def drm_mode_fb_cmd2 : Nat := 104

/-- struct drm_mode_obj_get_properties: two u64 array pointers and three u32
fields, padded to 8-byte alignment. -/
def drm_mode_obj_get_properties : Nat := 32

/-- struct drm_mode_obj_set_property: a u64 value and three u32 ids, padded
to 8-byte alignment. -/
def drm_mode_obj_set_property : Nat := 24

/-- struct drm_mode_cursor2: nine u32 fields. -/
def drm_mode_cursor2 : Nat := 36

/-- struct drm_mode_atomic: two u32 fields and six u64 fields. -/
def drm_mode_atomic : Nat := 56

/-- struct drm_mode_create_blob: a u64 data pointer and two u32 fields. -/
def drm_mode_create_blob : Nat := 16

/-- struct drm_mode_destroy_blob: a single u32 blob id. -/
def drm_mode_destroy_blob : Nat := 4

/-- struct drm_set_client_cap: u64 capability and u64 value. -/
def drm_set_client_cap : Nat := 16

end CSize

namespace Part000

/-! Embedding of the first segment of `src/unnamed/part_000`: the
hand-expanded `MACRO_DRM_IOCTL_*` constant table.  Each Lean definition
carries the constant's name without the `MACRO_` prefix and expands exactly
the macro invocation written in the C source. -/

open Ioctl CSize

/-- part_000 line 4: DRM_IO(0x1e). -/
def DRM_IOCTL_SET_MASTER : Nat := drmIoNone 0x1e

/-- part_000 line 5: DRM_IO(0x1f). -/
def DRM_IOCTL_DROP_MASTER : Nat := drmIoNone 0x1f

/-- part_000 line 6: DRM_IO(0x0d) — note the source hand-expands this one
with DRM_IO, carrying no payload size. -/
def DRM_IOCTL_SET_CLIENT_CAP : Nat := drmIoNone 0x0d

/-- part_000 line 8: DRM_IOWR(0xA0, struct drm_mode_card_res). -/
def DRM_IOCTL_MODE_GETRESOURCES : Nat := drmIoReadWrite 0xA0 drm_mode_card_res

/-- part_000 line 9: DRM_IOWR(0xA1, struct drm_mode_crtc). -/
def DRM_IOCTL_MODE_GETCRTC : Nat := drmIoReadWrite 0xA1 drm_mode_crtc

/-- part_000 line 10: DRM_IOWR(0xA2, struct drm_mode_crtc). -/
def DRM_IOCTL_MODE_SETCRTC : Nat := drmIoReadWrite 0xA2 drm_mode_crtc

/-- part_000 line 11: DRM_IOWR(0xA3, struct drm_mode_cursor). -/
def DRM_IOCTL_MODE_CURSOR : Nat := drmIoReadWrite 0xA3 drm_mode_cursor

/-- part_000 line 12: DRM_IOWR(0xA4, struct drm_mode_crtc_lut). -/
def DRM_IOCTL_MODE_GETGAMMA : Nat := drmIoReadWrite 0xA4 drm_mode_crtc_lut

/-- part_000 line 13: DRM_IOWR(0xA5, struct drm_mode_crtc_lut). -/
def DRM_IOCTL_MODE_SETGAMMA : Nat := drmIoReadWrite 0xA5 drm_mode_crtc_lut

/-- part_000 line 14: DRM_IOWR(0xA6, struct drm_mode_get_encoder). -/
def DRM_IOCTL_MODE_GETENCODER : Nat := drmIoReadWrite 0xA6 drm_mode_get_encoder

/-- part_000 line 15: DRM_IOWR(0xA7, struct drm_mode_get_connector). -/
def DRM_IOCTL_MODE_GETCONNECTOR : Nat := drmIoReadWrite 0xA7 drm_mode_get_connector

/-- part_000 line 16: DRM_IOWR(0xA8, struct drm_mode_mode_cmd). -/
def DRM_IOCTL_MODE_ATTACHMODE : Nat := drmIoReadWrite 0xA8 drm_mode_mode_cmd

/-- part_000 line 17: DRM_IOWR(0xA9, struct drm_mode_mode_cmd). -/
def DRM_IOCTL_MODE_DETACHMODE : Nat := drmIoReadWrite 0xA9 drm_mode_mode_cmd

/-- part_000 line 19: DRM_IOWR(0xAA, struct drm_mode_get_property). -/
def DRM_IOCTL_MODE_GETPROPERTY : Nat := drmIoReadWrite 0xAA drm_mode_get_property

/-- part_000 line 20: DRM_IOWR(0xAB, struct drm_mode_connector_set_property). -/
def DRM_IOCTL_MODE_SETPROPERTY : Nat := drmIoReadWrite 0xAB drm_mode_connector_set_property

/-- part_000 line 21: DRM_IOWR(0xAC, struct drm_mode_get_blob). -/
def DRM_IOCTL_MODE_GETPROPBLOB : Nat := drmIoReadWrite 0xAC drm_mode_get_blob

/-- part_000 line 22: DRM_IOWR(0xAD, struct drm_mode_fb_cmd). -/
def DRM_IOCTL_MODE_GETFB : Nat := drmIoReadWrite 0xAD drm_mode_fb_cmd

/-- part_000 line 23: DRM_IOWR(0xAE, struct drm_mode_fb_cmd). -/
def DRM_IOCTL_MODE_ADDFB : Nat := drmIoReadWrite 0xAE drm_mode_fb_cmd

/-- part_000 line 24: DRM_IOWR(0xAF, unsigned int). -/
def DRM_IOCTL_MODE_RMFB : Nat := drmIoReadWrite 0xAF unsigned_int

/-- part_000 line 25: DRM_IOWR(0xB0, struct drm_mode_crtc_page_flip). -/
def DRM_IOCTL_MODE_PAGE_FLIP : Nat := drmIoReadWrite 0xB0 drm_mode_crtc_page_flip

/-- part_000 line 26: DRM_IOWR(0xB1, struct drm_mode_fb_dirty_cmd). -/
def DRM_IOCTL_MODE_DIRTYFB : Nat := drmIoReadWrite 0xB1 drm_mode_fb_dirty_cmd

/-- part_000 line 28: DRM_IOWR(0xB2, struct drm_mode_create_dumb). -/
def DRM_IOCTL_MODE_CREATE_DUMB : Nat := drmIoReadWrite 0xB2 drm_mode_create_dumb

/-- part_000 line 29: DRM_IOWR(0xB3, struct drm_mode_map_dumb). -/
def DRM_IOCTL_MODE_MAP_DUMB : Nat := drmIoReadWrite 0xB3 drm_mode_map_dumb

/-- part_000 line 30: DRM_IOWR(0xB4, struct drm_mode_destroy_dumb). -/
def DRM_IOCTL_MODE_DESTROY_DUMB : Nat := drmIoReadWrite 0xB4 drm_mode_destroy_dumb

/-- part_000 line 31: DRM_IOWR(0xB5, struct drm_mode_get_plane_res). -/
def DRM_IOCTL_MODE_GETPLANERESOURCES : Nat := drmIoReadWrite 0xB5 drm_mode_get_plane_res

/-- part_000 line 32: DRM_IOWR(0xB6, struct drm_mode_get_plane). -/
def DRM_IOCTL_MODE_GETPLANE : Nat := drmIoReadWrite 0xB6 drm_mode_get_plane

/-- part_000 line 33: DRM_IOWR(0xB7, struct drm_mode_set_plane). -/
def DRM_IOCTL_MODE_SETPLANE : Nat := drmIoReadWrite 0xB7 drm_mode_set_plane

/-- part_000 line 34: DRM_IOWR(0xB8, struct drm_mode_fb_cmd2). -/
def DRM_IOCTL_MODE_ADDFB2 : Nat := drmIoReadWrite 0xB8 drm_mode_fb_cmd2

/-- part_000 line 35: DRM_IOWR(0xB9, struct drm_mode_obj_get_properties). -/
def DRM_IOCTL_MODE_OBJ_GETPROPERTIES : Nat := drmIoReadWrite 0xB9 drm_mode_obj_get_properties

/-- part_000 line 36: DRM_IOWR(0xBA, struct drm_mode_obj_set_property). -/
def DRM_IOCTL_MODE_OBJ_SETPROPERTY : Nat := drmIoReadWrite 0xBA drm_mode_obj_set_property

/-- part_000 line 37: DRM_IOWR(0xBB, struct drm_mode_cursor2). -/
def DRM_IOCTL_MODE_CURSOR2 : Nat := drmIoReadWrite 0xBB drm_mode_cursor2

/-- part_000 line 38: DRM_IOWR(0xBC, struct drm_mode_atomic). -/
def DRM_IOCTL_MODE_ATOMIC : Nat := drmIoReadWrite 0xBC drm_mode_atomic

/-- part_000 line 39: DRM_IOWR(0xBD, struct drm_mode_create_blob). -/
def DRM_IOCTL_MODE_CREATEPROPBLOB : Nat := drmIoReadWrite 0xBD drm_mode_create_blob

/-- part_000 line 40: DRM_IOWR(0xBE, struct drm_mode_destroy_blob). -/
def DRM_IOCTL_MODE_DESTROYPROPBLOB : Nat := drmIoReadWrite 0xBE drm_mode_destroy_blob

/-- The mode-setting block of part_000's table, in source order, keyed by
the constant name without the `MACRO_` prefix. -/
def modeTable : List (String × Nat) :=
  [("DRM_IOCTL_MODE_GETRESOURCES", DRM_IOCTL_MODE_GETRESOURCES),
   ("DRM_IOCTL_MODE_GETCRTC", DRM_IOCTL_MODE_GETCRTC),
   ("DRM_IOCTL_MODE_SETCRTC", DRM_IOCTL_MODE_SETCRTC),
   ("DRM_IOCTL_MODE_CURSOR", DRM_IOCTL_MODE_CURSOR),
   ("DRM_IOCTL_MODE_GETGAMMA", DRM_IOCTL_MODE_GETGAMMA),
   ("DRM_IOCTL_MODE_SETGAMMA", DRM_IOCTL_MODE_SETGAMMA),
   ("DRM_IOCTL_MODE_GETENCODER", DRM_IOCTL_MODE_GETENCODER),
   ("DRM_IOCTL_MODE_GETCONNECTOR", DRM_IOCTL_MODE_GETCONNECTOR),
   ("DRM_IOCTL_MODE_ATTACHMODE", DRM_IOCTL_MODE_ATTACHMODE),
   ("DRM_IOCTL_MODE_DETACHMODE", DRM_IOCTL_MODE_DETACHMODE),
   ("DRM_IOCTL_MODE_GETPROPERTY", DRM_IOCTL_MODE_GETPROPERTY),
   ("DRM_IOCTL_MODE_SETPROPERTY", DRM_IOCTL_MODE_SETPROPERTY),
   ("DRM_IOCTL_MODE_GETPROPBLOB", DRM_IOCTL_MODE_GETPROPBLOB),
   ("DRM_IOCTL_MODE_GETFB", DRM_IOCTL_MODE_GETFB),
   ("DRM_IOCTL_MODE_ADDFB", DRM_IOCTL_MODE_ADDFB),
   ("DRM_IOCTL_MODE_RMFB", DRM_IOCTL_MODE_RMFB),
   ("DRM_IOCTL_MODE_PAGE_FLIP", DRM_IOCTL_MODE_PAGE_FLIP),
   ("DRM_IOCTL_MODE_DIRTYFB", DRM_IOCTL_MODE_DIRTYFB),
   ("DRM_IOCTL_MODE_CREATE_DUMB", DRM_IOCTL_MODE_CREATE_DUMB),
   ("DRM_IOCTL_MODE_MAP_DUMB", DRM_IOCTL_MODE_MAP_DUMB),
   ("DRM_IOCTL_MODE_DESTROY_DUMB", DRM_IOCTL_MODE_DESTROY_DUMB),
   ("DRM_IOCTL_MODE_GETPLANERESOURCES", DRM_IOCTL_MODE_GETPLANERESOURCES),
   ("DRM_IOCTL_MODE_GETPLANE", DRM_IOCTL_MODE_GETPLANE),
   ("DRM_IOCTL_MODE_SETPLANE", DRM_IOCTL_MODE_SETPLANE),
   ("DRM_IOCTL_MODE_ADDFB2", DRM_IOCTL_MODE_ADDFB2),
   ("DRM_IOCTL_MODE_OBJ_GETPROPERTIES", DRM_IOCTL_MODE_OBJ_GETPROPERTIES),
   ("DRM_IOCTL_MODE_OBJ_SETPROPERTY", DRM_IOCTL_MODE_OBJ_SETPROPERTY),
   ("DRM_IOCTL_MODE_CURSOR2", DRM_IOCTL_MODE_CURSOR2),
   ("DRM_IOCTL_MODE_ATOMIC", DRM_IOCTL_MODE_ATOMIC),
   ("DRM_IOCTL_MODE_CREATEPROPBLOB", DRM_IOCTL_MODE_CREATEPROPBLOB),
   ("DRM_IOCTL_MODE_DESTROYPROPBLOB", DRM_IOCTL_MODE_DESTROYPROPBLOB)]

end Part000

namespace Part001

/-! Embedding of `src/unnamed/part_001`: the second hand-expanded
`MACRO_DRM_IOCTL_*` table, which mirrors the kernel header definitions.
Only the constants whose names are also defined in part_000 are embedded
here (the master pair, the client-cap ioctl, and the mode-setting block at
lines 79 to 111); the remaining legacy entries of the table are not touched
by any claim. -/

open Ioctl CSize

/-- part_001 line 43: DRM_IO(0x1e). -/
def DRM_IOCTL_SET_MASTER : Nat := drmIoNone 0x1e

/-- part_001 line 44: DRM_IO(0x1f). -/
def DRM_IOCTL_DROP_MASTER : Nat := drmIoNone 0x1f

/-- part_001 line 24: DRM_IOW(0x0d, struct drm_set_client_cap) — unlike
part_000, this expansion carries the 16-byte payload, matching the kernel
header definition of DRM_IOCTL_SET_CLIENT_CAP. -/
def DRM_IOCTL_SET_CLIENT_CAP : Nat := drmIoWrite 0x0d drm_set_client_cap

/-- part_001 line 79: DRM_IOWR(0xA0, struct drm_mode_card_res). -/
def DRM_IOCTL_MODE_GETRESOURCES : Nat := drmIoReadWrite 0xA0 drm_mode_card_res

/-- part_001 line 80: DRM_IOWR(0xA1, struct drm_mode_crtc). -/
def DRM_IOCTL_MODE_GETCRTC : Nat := drmIoReadWrite 0xA1 drm_mode_crtc

/-- part_001 line 81: DRM_IOWR(0xA2, struct drm_mode_crtc). -/
def DRM_IOCTL_MODE_SETCRTC : Nat := drmIoReadWrite 0xA2 drm_mode_crtc

/-- part_001 line 82: DRM_IOWR(0xA3, struct drm_mode_cursor). -/
def DRM_IOCTL_MODE_CURSOR : Nat := drmIoReadWrite 0xA3 drm_mode_cursor

/-- part_001 line 83: DRM_IOWR(0xA4, struct drm_mode_crtc_lut). -/
def DRM_IOCTL_MODE_GETGAMMA : Nat := drmIoReadWrite 0xA4 drm_mode_crtc_lut

/-- part_001 line 84: DRM_IOWR(0xA5, struct drm_mode_crtc_lut). -/
def DRM_IOCTL_MODE_SETGAMMA : Nat := drmIoReadWrite 0xA5 drm_mode_crtc_lut

/-- part_001 line 85: DRM_IOWR(0xA6, struct drm_mode_get_encoder). -/
def DRM_IOCTL_MODE_GETENCODER : Nat := drmIoReadWrite 0xA6 drm_mode_get_encoder

/-- part_001 line 86: DRM_IOWR(0xA7, struct drm_mode_get_connector). -/
def DRM_IOCTL_MODE_GETCONNECTOR : Nat := drmIoReadWrite 0xA7 drm_mode_get_connector

/-- part_001 line 87: DRM_IOWR(0xA8, struct drm_mode_mode_cmd). -/
def DRM_IOCTL_MODE_ATTACHMODE : Nat := drmIoReadWrite 0xA8 drm_mode_mode_cmd

/-- part_001 line 88: DRM_IOWR(0xA9, struct drm_mode_mode_cmd). -/
def DRM_IOCTL_MODE_DETACHMODE : Nat := drmIoReadWrite 0xA9 drm_mode_mode_cmd

/-- part_001 line 90: DRM_IOWR(0xAA, struct drm_mode_get_property). -/
def DRM_IOCTL_MODE_GETPROPERTY : Nat := drmIoReadWrite 0xAA drm_mode_get_property

/-- part_001 line 91: DRM_IOWR(0xAB, struct drm_mode_connector_set_property). -/
def DRM_IOCTL_MODE_SETPROPERTY : Nat := drmIoReadWrite 0xAB drm_mode_connector_set_property

/-- part_001 line 92: DRM_IOWR(0xAC, struct drm_mode_get_blob). -/
def DRM_IOCTL_MODE_GETPROPBLOB : Nat := drmIoReadWrite 0xAC drm_mode_get_blob

/-- part_001 line 93: DRM_IOWR(0xAD, struct drm_mode_fb_cmd). -/
def DRM_IOCTL_MODE_GETFB : Nat := drmIoReadWrite 0xAD drm_mode_fb_cmd

/-- part_001 line 94: DRM_IOWR(0xAE, struct drm_mode_fb_cmd). -/
def DRM_IOCTL_MODE_ADDFB : Nat := drmIoReadWrite 0xAE drm_mode_fb_cmd

/-- part_001 line 95: DRM_IOWR(0xAF, unsigned int). -/
def DRM_IOCTL_MODE_RMFB : Nat := drmIoReadWrite 0xAF unsigned_int

/-- part_001 line 96: DRM_IOWR(0xB0, struct drm_mode_crtc_page_flip). -/
def DRM_IOCTL_MODE_PAGE_FLIP : Nat := drmIoReadWrite 0xB0 drm_mode_crtc_page_flip

/-- part_001 line 97: DRM_IOWR(0xB1, struct drm_mode_fb_dirty_cmd). -/
def DRM_IOCTL_MODE_DIRTYFB : Nat := drmIoReadWrite 0xB1 drm_mode_fb_dirty_cmd

/-- part_001 line 99: DRM_IOWR(0xB2, struct drm_mode_create_dumb). -/
def DRM_IOCTL_MODE_CREATE_DUMB : Nat := drmIoReadWrite 0xB2 drm_mode_create_dumb

/-- part_001 line 100: DRM_IOWR(0xB3, struct drm_mode_map_dumb). -/
def DRM_IOCTL_MODE_MAP_DUMB : Nat := drmIoReadWrite 0xB3 drm_mode_map_dumb

/-- part_001 line 101: DRM_IOWR(0xB4, struct drm_mode_destroy_dumb). -/
def DRM_IOCTL_MODE_DESTROY_DUMB : Nat := drmIoReadWrite 0xB4 drm_mode_destroy_dumb

/-- part_001 line 102: DRM_IOWR(0xB5, struct drm_mode_get_plane_res). -/
def DRM_IOCTL_MODE_GETPLANERESOURCES : Nat := drmIoReadWrite 0xB5 drm_mode_get_plane_res

/-- part_001 line 103: DRM_IOWR(0xB6, struct drm_mode_get_plane). -/
def DRM_IOCTL_MODE_GETPLANE : Nat := drmIoReadWrite 0xB6 drm_mode_get_plane

/-- part_001 line 104: DRM_IOWR(0xB7, struct drm_mode_set_plane). -/
def DRM_IOCTL_MODE_SETPLANE : Nat := drmIoReadWrite 0xB7 drm_mode_set_plane

/-- part_001 line 105: DRM_IOWR(0xB8, struct drm_mode_fb_cmd2). -/
def DRM_IOCTL_MODE_ADDFB2 : Nat := drmIoReadWrite 0xB8 drm_mode_fb_cmd2

/-- part_001 line 106: DRM_IOWR(0xB9, struct drm_mode_obj_get_properties). -/
def DRM_IOCTL_MODE_OBJ_GETPROPERTIES : Nat := drmIoReadWrite 0xB9 drm_mode_obj_get_properties

/-- part_001 line 107: DRM_IOWR(0xBA, struct drm_mode_obj_set_property). -/
def DRM_IOCTL_MODE_OBJ_SETPROPERTY : Nat := drmIoReadWrite 0xBA drm_mode_obj_set_property

/-- part_001 line 108: DRM_IOWR(0xBB, struct drm_mode_cursor2). -/
def DRM_IOCTL_MODE_CURSOR2 : Nat := drmIoReadWrite 0xBB drm_mode_cursor2

/-- part_001 line 109: DRM_IOWR(0xBC, struct drm_mode_atomic). -/
def DRM_IOCTL_MODE_ATOMIC : Nat := drmIoReadWrite 0xBC drm_mode_atomic

/-- part_001 line 110: DRM_IOWR(0xBD, struct drm_mode_create_blob). -/
def DRM_IOCTL_MODE_CREATEPROPBLOB : Nat := drmIoReadWrite 0xBD drm_mode_create_blob

/-- part_001 line 111: DRM_IOWR(0xBE, struct drm_mode_destroy_blob). -/
def DRM_IOCTL_MODE_DESTROYPROPBLOB : Nat := drmIoReadWrite 0xBE drm_mode_destroy_blob

/-- The mode-setting block of part_001's table (lines 79 to 111), in source
order, keyed by the constant name without the `MACRO_` prefix. -/
def modeTable : List (String × Nat) :=
  [("DRM_IOCTL_MODE_GETRESOURCES", DRM_IOCTL_MODE_GETRESOURCES),
   ("DRM_IOCTL_MODE_GETCRTC", DRM_IOCTL_MODE_GETCRTC),
   ("DRM_IOCTL_MODE_SETCRTC", DRM_IOCTL_MODE_SETCRTC),
   ("DRM_IOCTL_MODE_CURSOR", DRM_IOCTL_MODE_CURSOR),
   ("DRM_IOCTL_MODE_GETGAMMA", DRM_IOCTL_MODE_GETGAMMA),
   ("DRM_IOCTL_MODE_SETGAMMA", DRM_IOCTL_MODE_SETGAMMA),
   ("DRM_IOCTL_MODE_GETENCODER", DRM_IOCTL_MODE_GETENCODER),
   ("DRM_IOCTL_MODE_GETCONNECTOR", DRM_IOCTL_MODE_GETCONNECTOR),
   ("DRM_IOCTL_MODE_ATTACHMODE", DRM_IOCTL_MODE_ATTACHMODE),
   ("DRM_IOCTL_MODE_DETACHMODE", DRM_IOCTL_MODE_DETACHMODE),
   ("DRM_IOCTL_MODE_GETPROPERTY", DRM_IOCTL_MODE_GETPROPERTY),
   ("DRM_IOCTL_MODE_SETPROPERTY", DRM_IOCTL_MODE_SETPROPERTY),
   ("DRM_IOCTL_MODE_GETPROPBLOB", DRM_IOCTL_MODE_GETPROPBLOB),
   ("DRM_IOCTL_MODE_GETFB", DRM_IOCTL_MODE_GETFB),
   ("DRM_IOCTL_MODE_ADDFB", DRM_IOCTL_MODE_ADDFB),
   ("DRM_IOCTL_MODE_RMFB", DRM_IOCTL_MODE_RMFB),
   ("DRM_IOCTL_MODE_PAGE_FLIP", DRM_IOCTL_MODE_PAGE_FLIP),
   ("DRM_IOCTL_MODE_DIRTYFB", DRM_IOCTL_MODE_DIRTYFB),
   ("DRM_IOCTL_MODE_CREATE_DUMB", DRM_IOCTL_MODE_CREATE_DUMB),
   ("DRM_IOCTL_MODE_MAP_DUMB", DRM_IOCTL_MODE_MAP_DUMB),
   ("DRM_IOCTL_MODE_DESTROY_DUMB", DRM_IOCTL_MODE_DESTROY_DUMB),
   ("DRM_IOCTL_MODE_GETPLANERESOURCES", DRM_IOCTL_MODE_GETPLANERESOURCES),
   ("DRM_IOCTL_MODE_GETPLANE", DRM_IOCTL_MODE_GETPLANE),
   ("DRM_IOCTL_MODE_SETPLANE", DRM_IOCTL_MODE_SETPLANE),
   ("DRM_IOCTL_MODE_ADDFB2", DRM_IOCTL_MODE_ADDFB2),
   ("DRM_IOCTL_MODE_OBJ_GETPROPERTIES", DRM_IOCTL_MODE_OBJ_GETPROPERTIES),
   ("DRM_IOCTL_MODE_OBJ_SETPROPERTY", DRM_IOCTL_MODE_OBJ_SETPROPERTY),
   ("DRM_IOCTL_MODE_CURSOR2", DRM_IOCTL_MODE_CURSOR2),
   ("DRM_IOCTL_MODE_ATOMIC", DRM_IOCTL_MODE_ATOMIC),
   ("DRM_IOCTL_MODE_CREATEPROPBLOB", DRM_IOCTL_MODE_CREATEPROPBLOB),
   ("DRM_IOCTL_MODE_DESTROYPROPBLOB", DRM_IOCTL_MODE_DESTROYPROPBLOB)]

end Part001

namespace Kernel

/-- Modelled from the spec: the kernel-level header macro
DRM_IOCTL_SET_CLIENT_CAP, defined as DRM_IOW(0x0d, struct drm_set_client_cap)
in the drm.h header the shim includes; the header itself is not part of the
repository sources. -/
def DRM_IOCTL_SET_CLIENT_CAP : Nat := Ioctl.drmIoWrite 0x0d CSize.drm_set_client_cap

end Kernel

namespace DrmShimC

/-! Embedding of `src/src/ffi/drm-shim.c`: each `FFI_DRM_IOCTL_*` constant is
assigned from the corresponding kernel header macro `DRM_IOCTL_*`, so each
definition below expands the kernel header's encoding for that command.  The
deprecated attach-mode and detach-mode entries are commented out in the C
source (lines 83 and 84) and therefore have no embedding.  Only the constants
touched by the claims are embedded: the master pair, the client-cap ioctl and
the mode-setting block at lines 75 to 107. -/

open Ioctl CSize

/-- drm-shim.c line 39: DRM_IOCTL_SET_MASTER = DRM_IO(0x1e). -/
def FFI_DRM_IOCTL_SET_MASTER : Nat := drmIoNone 0x1e

/-- drm-shim.c line 40: DRM_IOCTL_DROP_MASTER = DRM_IO(0x1f). -/
def FFI_DRM_IOCTL_DROP_MASTER : Nat := drmIoNone 0x1f

/-- drm-shim.c line 20: DRM_IOCTL_SET_CLIENT_CAP =
DRM_IOW(0x0d, struct drm_set_client_cap). -/
def FFI_DRM_IOCTL_SET_CLIENT_CAP : Nat := drmIoWrite 0x0d drm_set_client_cap

/-- drm-shim.c line 75: DRM_IOCTL_MODE_GETRESOURCES =
DRM_IOWR(0xA0, struct drm_mode_card_res). -/
def FFI_DRM_IOCTL_MODE_GETRESOURCES : Nat := drmIoReadWrite 0xA0 drm_mode_card_res

/-- drm-shim.c line 76: DRM_IOCTL_MODE_GETCRTC =
DRM_IOWR(0xA1, struct drm_mode_crtc). -/
def FFI_DRM_IOCTL_MODE_GETCRTC : Nat := drmIoReadWrite 0xA1 drm_mode_crtc

/-- drm-shim.c line 77: DRM_IOCTL_MODE_SETCRTC =
DRM_IOWR(0xA2, struct drm_mode_crtc). -/
def FFI_DRM_IOCTL_MODE_SETCRTC : Nat := drmIoReadWrite 0xA2 drm_mode_crtc

/-- drm-shim.c line 78: DRM_IOCTL_MODE_CURSOR =
DRM_IOWR(0xA3, struct drm_mode_cursor). -/
def FFI_DRM_IOCTL_MODE_CURSOR : Nat := drmIoReadWrite 0xA3 drm_mode_cursor

/-- drm-shim.c line 79: DRM_IOCTL_MODE_GETGAMMA =
DRM_IOWR(0xA4, struct drm_mode_crtc_lut). -/
def FFI_DRM_IOCTL_MODE_GETGAMMA : Nat := drmIoReadWrite 0xA4 drm_mode_crtc_lut

/-- drm-shim.c line 80: DRM_IOCTL_MODE_SETGAMMA =
DRM_IOWR(0xA5, struct drm_mode_crtc_lut). -/
def FFI_DRM_IOCTL_MODE_SETGAMMA : Nat := drmIoReadWrite 0xA5 drm_mode_crtc_lut

/-- drm-shim.c line 81: DRM_IOCTL_MODE_GETENCODER =
DRM_IOWR(0xA6, struct drm_mode_get_encoder). -/
def FFI_DRM_IOCTL_MODE_GETENCODER : Nat := drmIoReadWrite 0xA6 drm_mode_get_encoder

/-- drm-shim.c line 82: DRM_IOCTL_MODE_GETCONNECTOR =
DRM_IOWR(0xA7, struct drm_mode_get_connector). -/
def FFI_DRM_IOCTL_MODE_GETCONNECTOR : Nat := drmIoReadWrite 0xA7 drm_mode_get_connector

/-- drm-shim.c line 86: DRM_IOCTL_MODE_GETPROPERTY =
DRM_IOWR(0xAA, struct drm_mode_get_property). -/
def FFI_DRM_IOCTL_MODE_GETPROPERTY : Nat := drmIoReadWrite 0xAA drm_mode_get_property

/-- drm-shim.c line 87: DRM_IOCTL_MODE_SETPROPERTY =
DRM_IOWR(0xAB, struct drm_mode_connector_set_property). -/
def FFI_DRM_IOCTL_MODE_SETPROPERTY : Nat := drmIoReadWrite 0xAB drm_mode_connector_set_property

/-- drm-shim.c line 88: DRM_IOCTL_MODE_GETPROPBLOB =
DRM_IOWR(0xAC, struct drm_mode_get_blob). -/
def FFI_DRM_IOCTL_MODE_GETPROPBLOB : Nat := drmIoReadWrite 0xAC drm_mode_get_blob

/-- drm-shim.c line 89: DRM_IOCTL_MODE_GETFB =
DRM_IOWR(0xAD, struct drm_mode_fb_cmd). -/
def FFI_DRM_IOCTL_MODE_GETFB : Nat := drmIoReadWrite 0xAD drm_mode_fb_cmd

/-- drm-shim.c line 90: DRM_IOCTL_MODE_ADDFB =
DRM_IOWR(0xAE, struct drm_mode_fb_cmd). -/
def FFI_DRM_IOCTL_MODE_ADDFB : Nat := drmIoReadWrite 0xAE drm_mode_fb_cmd

/-- drm-shim.c line 91: DRM_IOCTL_MODE_RMFB = DRM_IOWR(0xAF, unsigned int). -/
def FFI_DRM_IOCTL_MODE_RMFB : Nat := drmIoReadWrite 0xAF unsigned_int

/-- drm-shim.c line 92: DRM_IOCTL_MODE_PAGE_FLIP =
DRM_IOWR(0xB0, struct drm_mode_crtc_page_flip). -/
def FFI_DRM_IOCTL_MODE_PAGE_FLIP : Nat := drmIoReadWrite 0xB0 drm_mode_crtc_page_flip

/-- drm-shim.c line 93: DRM_IOCTL_MODE_DIRTYFB =
DRM_IOWR(0xB1, struct drm_mode_fb_dirty_cmd). -/
def FFI_DRM_IOCTL_MODE_DIRTYFB : Nat := drmIoReadWrite 0xB1 drm_mode_fb_dirty_cmd

/-- drm-shim.c line 95: DRM_IOCTL_MODE_CREATE_DUMB =
DRM_IOWR(0xB2, struct drm_mode_create_dumb). -/
def FFI_DRM_IOCTL_MODE_CREATE_DUMB : Nat := drmIoReadWrite 0xB2 drm_mode_create_dumb

/-- drm-shim.c line 96: DRM_IOCTL_MODE_MAP_DUMB =
DRM_IOWR(0xB3, struct drm_mode_map_dumb). -/
def FFI_DRM_IOCTL_MODE_MAP_DUMB : Nat := drmIoReadWrite 0xB3 drm_mode_map_dumb

/-- drm-shim.c line 97: DRM_IOCTL_MODE_DESTROY_DUMB =
DRM_IOWR(0xB4, struct drm_mode_destroy_dumb). -/
def FFI_DRM_IOCTL_MODE_DESTROY_DUMB : Nat := drmIoReadWrite 0xB4 drm_mode_destroy_dumb

/-- drm-shim.c line 98: DRM_IOCTL_MODE_GETPLANERESOURCES =
DRM_IOWR(0xB5, struct drm_mode_get_plane_res). -/
def FFI_DRM_IOCTL_MODE_GETPLANERESOURCES : Nat := drmIoReadWrite 0xB5 drm_mode_get_plane_res

/-- drm-shim.c line 99: DRM_IOCTL_MODE_GETPLANE =
DRM_IOWR(0xB6, struct drm_mode_get_plane). -/
def FFI_DRM_IOCTL_MODE_GETPLANE : Nat := drmIoReadWrite 0xB6 drm_mode_get_plane

/-- drm-shim.c line 100: DRM_IOCTL_MODE_SETPLANE =
DRM_IOWR(0xB7, struct drm_mode_set_plane). -/
def FFI_DRM_IOCTL_MODE_SETPLANE : Nat := drmIoReadWrite 0xB7 drm_mode_set_plane

/-- drm-shim.c line 101: DRM_IOCTL_MODE_ADDFB2 =
DRM_IOWR(0xB8, struct drm_mode_fb_cmd2). -/
def FFI_DRM_IOCTL_MODE_ADDFB2 : Nat := drmIoReadWrite 0xB8 drm_mode_fb_cmd2

/-- drm-shim.c line 102: DRM_IOCTL_MODE_OBJ_GETPROPERTIES =
DRM_IOWR(0xB9, struct drm_mode_obj_get_properties). -/
def FFI_DRM_IOCTL_MODE_OBJ_GETPROPERTIES : Nat := drmIoReadWrite 0xB9 drm_mode_obj_get_properties

/-- drm-shim.c line 103: DRM_IOCTL_MODE_OBJ_SETPROPERTY =
DRM_IOWR(0xBA, struct drm_mode_obj_set_property). -/
def FFI_DRM_IOCTL_MODE_OBJ_SETPROPERTY : Nat := drmIoReadWrite 0xBA drm_mode_obj_set_property

/-- drm-shim.c line 104: DRM_IOCTL_MODE_CURSOR2 =
DRM_IOWR(0xBB, struct drm_mode_cursor2). -/
def FFI_DRM_IOCTL_MODE_CURSOR2 : Nat := drmIoReadWrite 0xBB drm_mode_cursor2

/-- drm-shim.c line 105: DRM_IOCTL_MODE_ATOMIC =
DRM_IOWR(0xBC, struct drm_mode_atomic). -/
def FFI_DRM_IOCTL_MODE_ATOMIC : Nat := drmIoReadWrite 0xBC drm_mode_atomic

/-- drm-shim.c line 106: DRM_IOCTL_MODE_CREATEPROPBLOB =
DRM_IOWR(0xBD, struct drm_mode_create_blob). -/
def FFI_DRM_IOCTL_MODE_CREATEPROPBLOB : Nat := drmIoReadWrite 0xBD drm_mode_create_blob

/-- drm-shim.c line 107: DRM_IOCTL_MODE_DESTROYPROPBLOB =
DRM_IOWR(0xBE, struct drm_mode_destroy_blob). -/
def FFI_DRM_IOCTL_MODE_DESTROYPROPBLOB : Nat := drmIoReadWrite 0xBE drm_mode_destroy_blob

/-- The command-code table of drm-shim.c restricted to the constants the
claims touch: the master pair, the client-cap ioctl and the mode-setting
block, keyed by the exported symbol name, in source order. -/
def ffiTable : List (String × Nat) :=
  [("FFI_DRM_IOCTL_SET_CLIENT_CAP", FFI_DRM_IOCTL_SET_CLIENT_CAP),
   ("FFI_DRM_IOCTL_SET_MASTER", FFI_DRM_IOCTL_SET_MASTER),
   ("FFI_DRM_IOCTL_DROP_MASTER", FFI_DRM_IOCTL_DROP_MASTER),
   ("FFI_DRM_IOCTL_MODE_GETRESOURCES", FFI_DRM_IOCTL_MODE_GETRESOURCES),
   ("FFI_DRM_IOCTL_MODE_GETCRTC", FFI_DRM_IOCTL_MODE_GETCRTC),
   ("FFI_DRM_IOCTL_MODE_SETCRTC", FFI_DRM_IOCTL_MODE_SETCRTC),
   ("FFI_DRM_IOCTL_MODE_CURSOR", FFI_DRM_IOCTL_MODE_CURSOR),
   ("FFI_DRM_IOCTL_MODE_GETGAMMA", FFI_DRM_IOCTL_MODE_GETGAMMA),
   ("FFI_DRM_IOCTL_MODE_SETGAMMA", FFI_DRM_IOCTL_MODE_SETGAMMA),
   ("FFI_DRM_IOCTL_MODE_GETENCODER", FFI_DRM_IOCTL_MODE_GETENCODER),
   ("FFI_DRM_IOCTL_MODE_GETCONNECTOR", FFI_DRM_IOCTL_MODE_GETCONNECTOR),
   ("FFI_DRM_IOCTL_MODE_GETPROPERTY", FFI_DRM_IOCTL_MODE_GETPROPERTY),
   ("FFI_DRM_IOCTL_MODE_SETPROPERTY", FFI_DRM_IOCTL_MODE_SETPROPERTY),
   ("FFI_DRM_IOCTL_MODE_GETPROPBLOB", FFI_DRM_IOCTL_MODE_GETPROPBLOB),
   ("FFI_DRM_IOCTL_MODE_GETFB", FFI_DRM_IOCTL_MODE_GETFB),
   ("FFI_DRM_IOCTL_MODE_ADDFB", FFI_DRM_IOCTL_MODE_ADDFB),
   ("FFI_DRM_IOCTL_MODE_RMFB", FFI_DRM_IOCTL_MODE_RMFB),
   ("FFI_DRM_IOCTL_MODE_PAGE_FLIP", FFI_DRM_IOCTL_MODE_PAGE_FLIP),
   ("FFI_DRM_IOCTL_MODE_DIRTYFB", FFI_DRM_IOCTL_MODE_DIRTYFB),
   ("FFI_DRM_IOCTL_MODE_CREATE_DUMB", FFI_DRM_IOCTL_MODE_CREATE_DUMB),
   ("FFI_DRM_IOCTL_MODE_MAP_DUMB", FFI_DRM_IOCTL_MODE_MAP_DUMB),
   ("FFI_DRM_IOCTL_MODE_DESTROY_DUMB", FFI_DRM_IOCTL_MODE_DESTROY_DUMB),
   ("FFI_DRM_IOCTL_MODE_GETPLANERESOURCES", FFI_DRM_IOCTL_MODE_GETPLANERESOURCES),
   ("FFI_DRM_IOCTL_MODE_GETPLANE", FFI_DRM_IOCTL_MODE_GETPLANE),
   ("FFI_DRM_IOCTL_MODE_SETPLANE", FFI_DRM_IOCTL_MODE_SETPLANE),
   ("FFI_DRM_IOCTL_MODE_ADDFB2", FFI_DRM_IOCTL_MODE_ADDFB2),
   ("FFI_DRM_IOCTL_MODE_OBJ_GETPROPERTIES", FFI_DRM_IOCTL_MODE_OBJ_GETPROPERTIES),
   ("FFI_DRM_IOCTL_MODE_OBJ_SETPROPERTY", FFI_DRM_IOCTL_MODE_OBJ_SETPROPERTY),
   ("FFI_DRM_IOCTL_MODE_CURSOR2", FFI_DRM_IOCTL_MODE_CURSOR2),
   ("FFI_DRM_IOCTL_MODE_ATOMIC", FFI_DRM_IOCTL_MODE_ATOMIC),
   ("FFI_DRM_IOCTL_MODE_CREATEPROPBLOB", FFI_DRM_IOCTL_MODE_CREATEPROPBLOB),
   ("FFI_DRM_IOCTL_MODE_DESTROYPROPBLOB", FFI_DRM_IOCTL_MODE_DESTROYPROPBLOB)]

/-- The mode-setting subset of the table (request numbers 0xA0 to 0xBE), in
source order. -/
def ffiModeTable : List (String × Nat) := ffiTable.drop 3

end DrmShimC

namespace Fourcc

/-! Embedding of the third segment of `src/unnamed/part_000`: the
`FFI_DRM_FORMAT_*` pixel-format tags, each assigned from the corresponding
kernel `drm_fourcc.h` macro.  Those macros build a 32-bit tag from four
ASCII character codes packed little-endian; the character codes are written
numerically below (0x20 is the space character). -/

/-- The fourcc_code packing from drm_fourcc.h: four byte values packed
little-endian into one 32-bit tag. -/
def fourcc (a b c d : Nat) : Nat := a ||| (b <<< 8) ||| (c <<< 16) ||| (d <<< 24)

def FFI_DRM_FORMAT_C8 : Nat := fourcc 0x43 0x38 0x20 0x20
def FFI_DRM_FORMAT_R8 : Nat := fourcc 0x52 0x38 0x20 0x20
def FFI_DRM_FORMAT_RG88 : Nat := fourcc 0x52 0x47 0x38 0x38
def FFI_DRM_FORMAT_GR88 : Nat := fourcc 0x47 0x52 0x38 0x38
def FFI_DRM_FORMAT_RGB332 : Nat := fourcc 0x52 0x47 0x42 0x38
def FFI_DRM_FORMAT_BGR233 : Nat := fourcc 0x42 0x47 0x52 0x38
def FFI_DRM_FORMAT_XRGB4444 : Nat := fourcc 0x58 0x52 0x31 0x32
def FFI_DRM_FORMAT_XBGR4444 : Nat := fourcc 0x58 0x42 0x31 0x32
def FFI_DRM_FORMAT_RGBX4444 : Nat := fourcc 0x52 0x58 0x31 0x32
def FFI_DRM_FORMAT_BGRX4444 : Nat := fourcc 0x42 0x58 0x31 0x32
def FFI_DRM_FORMAT_ARGB4444 : Nat := fourcc 0x41 0x52 0x31 0x32
def FFI_DRM_FORMAT_ABGR4444 : Nat := fourcc 0x41 0x42 0x31 0x32
def FFI_DRM_FORMAT_RGBA4444 : Nat := fourcc 0x52 0x41 0x31 0x32
def FFI_DRM_FORMAT_BGRA4444 : Nat := fourcc 0x42 0x41 0x31 0x32
def FFI_DRM_FORMAT_XRGB1555 : Nat := fourcc 0x58 0x52 0x31 0x35
def FFI_DRM_FORMAT_XBGR1555 : Nat := fourcc 0x58 0x42 0x31 0x35
def FFI_DRM_FORMAT_RGBX5551 : Nat := fourcc 0x52 0x58 0x31 0x35
def FFI_DRM_FORMAT_BGRX5551 : Nat := fourcc 0x42 0x58 0x31 0x35
def FFI_DRM_FORMAT_ARGB1555 : Nat := fourcc 0x41 0x52 0x31 0x35
def FFI_DRM_FORMAT_ABGR1555 : Nat := fourcc 0x41 0x42 0x31 0x35
def FFI_DRM_FORMAT_RGBA5551 : Nat := fourcc 0x52 0x41 0x31 0x35
def FFI_DRM_FORMAT_BGRA5551 : Nat := fourcc 0x42 0x41 0x31 0x35
def FFI_DRM_FORMAT_RGB565 : Nat := fourcc 0x52 0x47 0x31 0x36
def FFI_DRM_FORMAT_BGR565 : Nat := fourcc 0x42 0x47 0x31 0x36
def FFI_DRM_FORMAT_RGB888 : Nat := fourcc 0x52 0x47 0x32 0x34
def FFI_DRM_FORMAT_BGR888 : Nat := fourcc 0x42 0x47 0x32 0x34
def FFI_DRM_FORMAT_XRGB8888 : Nat := fourcc 0x58 0x52 0x32 0x34
def FFI_DRM_FORMAT_XBGR8888 : Nat := fourcc 0x58 0x42 0x32 0x34
def FFI_DRM_FORMAT_RGBX8888 : Nat := fourcc 0x52 0x58 0x32 0x34
def FFI_DRM_FORMAT_BGRX8888 : Nat := fourcc 0x42 0x58 0x32 0x34
def FFI_DRM_FORMAT_ARGB8888 : Nat := fourcc 0x41 0x52 0x32 0x34
def FFI_DRM_FORMAT_ABGR8888 : Nat := fourcc 0x41 0x42 0x32 0x34
def FFI_DRM_FORMAT_RGBA8888 : Nat := fourcc 0x52 0x41 0x32 0x34
def FFI_DRM_FORMAT_BGRA8888 : Nat := fourcc 0x42 0x41 0x32 0x34
def FFI_DRM_FORMAT_XRGB2101010 : Nat := fourcc 0x58 0x52 0x33 0x30
def FFI_DRM_FORMAT_XBGR2101010 : Nat := fourcc 0x58 0x42 0x33 0x30
def FFI_DRM_FORMAT_RGBX1010102 : Nat := fourcc 0x52 0x58 0x33 0x30
def FFI_DRM_FORMAT_BGRX1010102 : Nat := fourcc 0x42 0x58 0x33 0x30
def FFI_DRM_FORMAT_ARGB2101010 : Nat := fourcc 0x41 0x52 0x33 0x30
def FFI_DRM_FORMAT_ABGR2101010 : Nat := fourcc 0x41 0x42 0x33 0x30
def FFI_DRM_FORMAT_RGBA1010102 : Nat := fourcc 0x52 0x41 0x33 0x30
def FFI_DRM_FORMAT_BGRA1010102 : Nat := fourcc 0x42 0x41 0x33 0x30
def FFI_DRM_FORMAT_YUYV : Nat := fourcc 0x59 0x55 0x59 0x56
def FFI_DRM_FORMAT_YVYU : Nat := fourcc 0x59 0x56 0x59 0x55
def FFI_DRM_FORMAT_UYVY : Nat := fourcc 0x55 0x59 0x56 0x59
def FFI_DRM_FORMAT_VYUY : Nat := fourcc 0x56 0x59 0x55 0x59
def FFI_DRM_FORMAT_AYUV : Nat := fourcc 0x41 0x59 0x55 0x56
def FFI_DRM_FORMAT_NV12 : Nat := fourcc 0x4E 0x56 0x31 0x32
def FFI_DRM_FORMAT_NV21 : Nat := fourcc 0x4E 0x56 0x32 0x31
def FFI_DRM_FORMAT_NV16 : Nat := fourcc 0x4E 0x56 0x31 0x36
def FFI_DRM_FORMAT_NV61 : Nat := fourcc 0x4E 0x56 0x36 0x31
def FFI_DRM_FORMAT_NV24 : Nat := fourcc 0x4E 0x56 0x32 0x34
def FFI_DRM_FORMAT_NV42 : Nat := fourcc 0x4E 0x56 0x34 0x32
def FFI_DRM_FORMAT_YUV410 : Nat := fourcc 0x59 0x55 0x56 0x39
def FFI_DRM_FORMAT_YVU410 : Nat := fourcc 0x59 0x56 0x55 0x39
def FFI_DRM_FORMAT_YUV411 : Nat := fourcc 0x59 0x55 0x31 0x31
def FFI_DRM_FORMAT_YVU411 : Nat := fourcc 0x59 0x56 0x31 0x31
def FFI_DRM_FORMAT_YUV420 : Nat := fourcc 0x59 0x55 0x31 0x32
def FFI_DRM_FORMAT_YVU420 : Nat := fourcc 0x59 0x56 0x31 0x32
def FFI_DRM_FORMAT_YUV422 : Nat := fourcc 0x59 0x55 0x31 0x36
def FFI_DRM_FORMAT_YVU422 : Nat := fourcc 0x59 0x56 0x31 0x36
def FFI_DRM_FORMAT_YUV444 : Nat := fourcc 0x59 0x55 0x32 0x34
def FFI_DRM_FORMAT_YVU444 : Nat := fourcc 0x59 0x56 0x32 0x34

/-- The pixel-format table of the shim, in source order, keyed by the
exported symbol name. -/
def formatTable : List (String × Nat) :=
  [("FFI_DRM_FORMAT_C8", FFI_DRM_FORMAT_C8),
   ("FFI_DRM_FORMAT_R8", FFI_DRM_FORMAT_R8),
   ("FFI_DRM_FORMAT_RG88", FFI_DRM_FORMAT_RG88),
   ("FFI_DRM_FORMAT_GR88", FFI_DRM_FORMAT_GR88),
   ("FFI_DRM_FORMAT_RGB332", FFI_DRM_FORMAT_RGB332),
   ("FFI_DRM_FORMAT_BGR233", FFI_DRM_FORMAT_BGR233),
   ("FFI_DRM_FORMAT_XRGB4444", FFI_DRM_FORMAT_XRGB4444),
   ("FFI_DRM_FORMAT_XBGR4444", FFI_DRM_FORMAT_XBGR4444),
   ("FFI_DRM_FORMAT_RGBX4444", FFI_DRM_FORMAT_RGBX4444),
   ("FFI_DRM_FORMAT_BGRX4444", FFI_DRM_FORMAT_BGRX4444),
   ("FFI_DRM_FORMAT_ARGB4444", FFI_DRM_FORMAT_ARGB4444),
   ("FFI_DRM_FORMAT_ABGR4444", FFI_DRM_FORMAT_ABGR4444),
   ("FFI_DRM_FORMAT_RGBA4444", FFI_DRM_FORMAT_RGBA4444),
   ("FFI_DRM_FORMAT_BGRA4444", FFI_DRM_FORMAT_BGRA4444),
   ("FFI_DRM_FORMAT_XRGB1555", FFI_DRM_FORMAT_XRGB1555),
   ("FFI_DRM_FORMAT_XBGR1555", FFI_DRM_FORMAT_XBGR1555),
   ("FFI_DRM_FORMAT_RGBX5551", FFI_DRM_FORMAT_RGBX5551),
   ("FFI_DRM_FORMAT_BGRX5551", FFI_DRM_FORMAT_BGRX5551),
   ("FFI_DRM_FORMAT_ARGB1555", FFI_DRM_FORMAT_ARGB1555),
   ("FFI_DRM_FORMAT_ABGR1555", FFI_DRM_FORMAT_ABGR1555),
   ("FFI_DRM_FORMAT_RGBA5551", FFI_DRM_FORMAT_RGBA5551),
   ("FFI_DRM_FORMAT_BGRA5551", FFI_DRM_FORMAT_BGRA5551),
   ("FFI_DRM_FORMAT_RGB565", FFI_DRM_FORMAT_RGB565),
   ("FFI_DRM_FORMAT_BGR565", FFI_DRM_FORMAT_BGR565),
   ("FFI_DRM_FORMAT_RGB888", FFI_DRM_FORMAT_RGB888),
   ("FFI_DRM_FORMAT_BGR888", FFI_DRM_FORMAT_BGR888),
   ("FFI_DRM_FORMAT_XRGB8888", FFI_DRM_FORMAT_XRGB8888),
   ("FFI_DRM_FORMAT_XBGR8888", FFI_DRM_FORMAT_XBGR8888),
   ("FFI_DRM_FORMAT_RGBX8888", FFI_DRM_FORMAT_RGBX8888),
   ("FFI_DRM_FORMAT_BGRX8888", FFI_DRM_FORMAT_BGRX8888),
   ("FFI_DRM_FORMAT_ARGB8888", FFI_DRM_FORMAT_ARGB8888),
   ("FFI_DRM_FORMAT_ABGR8888", FFI_DRM_FORMAT_ABGR8888),
   ("FFI_DRM_FORMAT_RGBA8888", FFI_DRM_FORMAT_RGBA8888),
   ("FFI_DRM_FORMAT_BGRA8888", FFI_DRM_FORMAT_BGRA8888),
   ("FFI_DRM_FORMAT_XRGB2101010", FFI_DRM_FORMAT_XRGB2101010),
   ("FFI_DRM_FORMAT_XBGR2101010", FFI_DRM_FORMAT_XBGR2101010),
   ("FFI_DRM_FORMAT_RGBX1010102", FFI_DRM_FORMAT_RGBX1010102),
   ("FFI_DRM_FORMAT_BGRX1010102", FFI_DRM_FORMAT_BGRX1010102),
   ("FFI_DRM_FORMAT_ARGB2101010", FFI_DRM_FORMAT_ARGB2101010),
   ("FFI_DRM_FORMAT_ABGR2101010", FFI_DRM_FORMAT_ABGR2101010),
   ("FFI_DRM_FORMAT_RGBA1010102", FFI_DRM_FORMAT_RGBA1010102),
   ("FFI_DRM_FORMAT_BGRA1010102", FFI_DRM_FORMAT_BGRA1010102),
   ("FFI_DRM_FORMAT_YUYV", FFI_DRM_FORMAT_YUYV),
   ("FFI_DRM_FORMAT_YVYU", FFI_DRM_FORMAT_YVYU),
   ("FFI_DRM_FORMAT_UYVY", FFI_DRM_FORMAT_UYVY),
   ("FFI_DRM_FORMAT_VYUY", FFI_DRM_FORMAT_VYUY),
   ("FFI_DRM_FORMAT_AYUV", FFI_DRM_FORMAT_AYUV),
   ("FFI_DRM_FORMAT_NV12", FFI_DRM_FORMAT_NV12),
   ("FFI_DRM_FORMAT_NV21", FFI_DRM_FORMAT_NV21),
   ("FFI_DRM_FORMAT_NV16", FFI_DRM_FORMAT_NV16),
   ("FFI_DRM_FORMAT_NV61", FFI_DRM_FORMAT_NV61),
   ("FFI_DRM_FORMAT_NV24", FFI_DRM_FORMAT_NV24),
   ("FFI_DRM_FORMAT_NV42", FFI_DRM_FORMAT_NV42),
   ("FFI_DRM_FORMAT_YUV410", FFI_DRM_FORMAT_YUV410),
   ("FFI_DRM_FORMAT_YVU410", FFI_DRM_FORMAT_YVU410),
   ("FFI_DRM_FORMAT_YUV411", FFI_DRM_FORMAT_YUV411),
   ("FFI_DRM_FORMAT_YVU411", FFI_DRM_FORMAT_YVU411),
   ("FFI_DRM_FORMAT_YUV420", FFI_DRM_FORMAT_YUV420),
   ("FFI_DRM_FORMAT_YVU420", FFI_DRM_FORMAT_YVU420),
   ("FFI_DRM_FORMAT_YUV422", FFI_DRM_FORMAT_YUV422),
   ("FFI_DRM_FORMAT_YVU422", FFI_DRM_FORMAT_YVU422),
   ("FFI_DRM_FORMAT_YUV444", FFI_DRM_FORMAT_YUV444),
   ("FFI_DRM_FORMAT_YVU444", FFI_DRM_FORMAT_YVU444)]

end Fourcc

namespace Core

/-! The core binding layer (Device, MasterLock, Resource Catalog, DumbBuffer
and the commit protocol) is not present under the repository sources — only
its constants shim and the README usage example are — so the definitions in
this namespace are modelled from the specification (sections 3 to 8) and the
claims are settled against them. -/

/-- Modelled from the spec: the error taxonomy of section 7; the missing
core defines one such kind per fallible operation outcome. -/
inductive Err where
  | NotFound
  | PermissionDenied
  | IoError
  | AlreadyMaster
  | ObjectVanished
  | InvalidArgument
  | InvalidFormat
  | UnsupportedMode
  | IncompatibleEncoder
  | InvalidCombination
  | OutOfMemory
  | InUse
  | MapFailed
  | TimedOut
deriving DecidableEq, Repr

/-- Modelled from the spec: a display timing descriptor with resolution,
refresh rate and timing flags, treated as an opaque comparable value; the
fields follow the drm_mode_modeinfo layout the shim's table references. -/
structure Mode where
  clock : Nat
  hdisplay : Nat
  vdisplay : Nat
  vrefresh : Nat
  flags : Nat
  mtype : Nat
deriving DecidableEq, Repr

/-- Modelled from the spec: a connector snapshot with its id, mode list
(ordered, preferred first) and the encoder ids it can drive. -/
structure Connector where
  id : Nat
  modes : List Mode
  encoders : List Nat
deriving DecidableEq, Repr

/-- Modelled from the spec: an encoder snapshot with its id and the
possible-controller bitmask whose bit i corresponds to the i-th controller
id of the same enumeration pass. -/
structure Encoder where
  id : Nat
  possibleCrtcs : Nat
deriving DecidableEq, Repr

/-- Modelled from the spec: a controller (CRTC) with its current mode and
assigned framebuffer id when active. -/
structure Controller where
  id : Nat
  currentMode : Option Mode
  framebufferId : Option Nat
deriving DecidableEq, Repr

/-- Modelled from the spec: the per-device state the missing core mediates —
the controllers, whether this process holds the master lock, the live
dumb-buffer handles with the next handle the device will hand out, and the
number of requests issued on the control channel so far (the fake channel's
call counter). -/
structure DevState where
  controllers : List Controller
  masterHeld : Bool
  liveHandles : List Nat
  nextHandle : Nat
  callCount : Nat
deriving DecidableEq, Repr

/-- Modelled from the spec: interpretation of the possible-controller
bitmask — the encoder can drive the controller exactly when some position i
of the controller-id list from the same enumeration pass holds that
controller's id and bit i of the mask is set. -/
def encoderCanDrive (possibleCrtcs : Nat) (ctrlIds : List Nat) (crtcId : Nat) : Bool :=
  (List.range ctrlIds.length).any fun i =>
    decide (ctrlIds.get? i = some crtcId) && possibleCrtcs.testBit i

/-- Modelled from the spec: the legacy per-controller commit.  It requires
the master lock, validates the chosen encoder against the
possible-controller bitmask, validates the mode by exact field match against
the connector's mode list, and only then issues the set-controller control
request (counting one channel call and recording the mode and framebuffer on
the target controller). -/
def setController (s : DevState) (enc : Encoder) (ctrlIds : List Nat) (crtcId fb : Nat)
    (conn : Connector) (mode : Mode) : DevState × Except Err Unit :=
  if s.masterHeld = false then
    (s, Except.error Err.PermissionDenied)
  else if encoderCanDrive enc.possibleCrtcs ctrlIds crtcId = false then
    (s, Except.error Err.IncompatibleEncoder)
  else if mode ∈ conn.modes then
    ({ s with
        callCount := s.callCount + 1,
        controllers := s.controllers.map fun c =>
          if c.id = crtcId then { c with currentMode := some mode, framebufferId := some fb }
          else c },
     Except.ok ())
  else
    (s, Except.error Err.UnsupportedMode)

/-- Modelled from the spec: an atomic-commit request, a batch of
per-controller property changes (target controller id with the mode and
framebuffer properties to apply). -/
structure AtomicRequest where
  updates : List (Nat × Option Mode × Option Nat)
  allowModeset : Bool
deriving DecidableEq, Repr

/-- Modelled from the spec: the effect of an accepted, applied atomic
commit — every update takes effect on its target controller in the same
vertical-blank interval. -/
def applyAtomic (s : DevState) (req : AtomicRequest) : DevState :=
  { s with
      controllers := s.controllers.map fun c =>
        match req.updates.lookup c.id with
        | some (m, f) => { c with currentMode := m, framebufferId := f }
        | none => c }

/-- Modelled from the spec: the atomic commit entry point.  The device's
acceptance of a proposed object/property set is abstracted as a predicate.
Issuing the commit is one control-channel round trip; a rejected set
surfaces InvalidCombination with no property taking effect, a test-only
(validate-without-apply) pass changes no display state even when accepted,
and an accepted real commit applies every update indivisibly. -/
def atomicCommit (accepts : AtomicRequest → Bool) (s : DevState) (req : AtomicRequest)
    (testOnly : Bool) : DevState × Except Err Unit :=
  if s.masterHeld = false then
    (s, Except.error Err.PermissionDenied)
  else if accepts req = false then
    ({ s with callCount := s.callCount + 1 }, Except.error Err.InvalidCombination)
  else if testOnly then
    ({ s with callCount := s.callCount + 1 }, Except.ok ())
  else
    ({ applyAtomic s req with callCount := s.callCount + 1 }, Except.ok ())

/-- Modelled from the spec: resolving one reported connector id — a
get-connector request that succeeds while the id is still valid and fails
with ObjectVanished once the object is gone (hot-unplug race). -/
def getConnector (live : List Nat) (fetch : Nat → Connector) (id : Nat) :
    Except Err Connector :=
  if id ∈ live then Except.ok (fetch id) else Except.error Err.ObjectVanished

/-- Modelled from the spec: connector enumeration — one independently
fetched element per id reported by the card-resources query, in the device's
report order, each failing independently without aborting the sequence. -/
def enumerateConnectors (live : List Nat) (fetch : Nat → Connector) (ids : List Nat) :
    List (Except Err Connector) :=
  ids.map (getConnector live fetch)

/-- Modelled from the spec: the become-master request.  A device already
mastered rejects the request with AlreadyMaster (no deadlock: the request is
a single total round trip); otherwise the caller becomes master. -/
def masterLock (s : DevState) : DevState × Except Err Unit :=
  if s.masterHeld then
    (s, Except.error Err.AlreadyMaster)
  else
    ({ s with masterHeld := true, callCount := s.callCount + 1 }, Except.ok ())

/-- Modelled from the spec: the paired drop-master request releasing the
master lock. -/
def dropMaster (s : DevState) : DevState × Except Err Unit :=
  ({ s with masterHeld := false, callCount := s.callCount + 1 }, Except.ok ())

/-- Modelled from the spec: the bits-per-pixel depths the device supports
for dumb-buffer allocation (commonly 8, 16, 24 or 32). -/
def supportedBpp (bpp : Nat) : Bool :=
  bpp == 8 || bpp == 16 || bpp == 24 || bpp == 32

/-- Modelled from the spec: dumb-buffer allocation.  Width and height must
be positive and the depth supported, else InvalidArgument; on success the
device hands out a fresh handle and records it live. -/
def allocateDumb (s : DevState) (w h bpp : Nat) : DevState × Except Err Nat :=
  if w = 0 ∨ h = 0 then
    (s, Except.error Err.InvalidArgument)
  else if supportedBpp bpp = false then
    (s, Except.error Err.InvalidArgument)
  else
    ({ s with
        liveHandles := s.nextHandle :: s.liveHandles,
        nextHandle := s.nextHandle + 1,
        callCount := s.callCount + 1 },
     Except.ok s.nextHandle)

/-- Modelled from the spec: the explicit destroy request for a dumb buffer;
the handle must be live, and afterwards it is live no more. -/
def destroyDumb (s : DevState) (hdl : Nat) : DevState × Except Err Unit :=
  if hdl ∈ s.liveHandles then
    ({ s with liveHandles := s.liveHandles.erase hdl, callCount := s.callCount + 1 },
     Except.ok ())
  else
    (s, Except.error Err.InvalidArgument)

/-- Modelled from the spec: the map-dumb request, returning a device-level
offset token for a live handle and failing with MapFailed otherwise. -/
def mapDumb (s : DevState) (hdl : Nat) : DevState × Except Err Nat :=
  if hdl ∈ s.liveHandles then
    ({ s with callCount := s.callCount + 1 }, Except.ok (hdl * 4096))
  else
    (s, Except.error Err.MapFailed)

/-- A fixed fetch function used to instantiate enumeration statements on
concrete inputs: the connector with the given id and empty lists. -/
def demoFetch : Nat → Connector := fun n => { id := n, modes := [], encoders := [] }

/-- A 1920 by 1080 at 60 Hz timing descriptor used to instantiate
statements on concrete inputs. -/
def demoMode : Mode := { clock := 148500, hdisplay := 1920, vdisplay := 1080,
                         vrefresh := 60, flags := 9, mtype := 64 }

/-- A 1280 by 720 at 60 Hz timing descriptor, differing from demoMode in
every field. -/
def demoModeOther : Mode := { clock := 74250, hdisplay := 1280, vdisplay := 720,
                              vrefresh := 59, flags := 5, mtype := 0 }

/-- A connected connector offering only demoMode and encoder id 7, used to
instantiate statements on concrete inputs. -/
def demoConnector : Connector := { id := 1, modes := [demoMode], encoders := [7] }

/-- An encoder whose possible-controller bitmask has only bit 0 set. -/
def demoEncoder : Encoder := { id := 7, possibleCrtcs := 1 }

/-- A mastered single-controller device state used to instantiate
statements on concrete inputs. -/
def demoState : DevState :=
  { controllers := [{ id := 1, currentMode := some demoMode, framebufferId := some 5 }],
    masterHeld := true, liveHandles := [], nextHandle := 1, callCount := 3 }

/-- A fresh unmastered device state with no live handles. -/
def demoFreshState : DevState :=
  { controllers := [], masterHeld := false, liveHandles := [], nextHandle := 1,
    callCount := 0 }

/-- An atomic request clearing controller 1, used to instantiate statements
on concrete inputs. -/
def demoRequest : AtomicRequest := { updates := [(1, none, none)], allowModeset := true }

end Core

namespace DrmShimC

/-- The constant names the specification's operation list maps to, one per
covered operation: get-resources, get-controller, set-controller,
get-connector, get-encoder, add-framebuffer (legacy and fourcc forms),
remove-framebuffer, create-, map- and destroy-dumb-buffer, set-master,
drop-master, set-client-capability, atomic-commit, page-flip, property get
and set (connector and generic-object forms), the property-blob variants
(get, create, destroy) and the plane variants (plane resources, get-plane,
set-plane). -/
def requiredOperationConstants : List String :=
  ["FFI_DRM_IOCTL_MODE_GETRESOURCES",
   "FFI_DRM_IOCTL_MODE_GETCRTC",
   "FFI_DRM_IOCTL_MODE_SETCRTC",
   "FFI_DRM_IOCTL_MODE_GETCONNECTOR",
   "FFI_DRM_IOCTL_MODE_GETENCODER",
   "FFI_DRM_IOCTL_MODE_ADDFB",
   "FFI_DRM_IOCTL_MODE_ADDFB2",
   "FFI_DRM_IOCTL_MODE_RMFB",
   "FFI_DRM_IOCTL_MODE_CREATE_DUMB",
   "FFI_DRM_IOCTL_MODE_MAP_DUMB",
   "FFI_DRM_IOCTL_MODE_DESTROY_DUMB",
   "FFI_DRM_IOCTL_SET_MASTER",
   "FFI_DRM_IOCTL_DROP_MASTER",
   "FFI_DRM_IOCTL_SET_CLIENT_CAP",
   "FFI_DRM_IOCTL_MODE_ATOMIC",
   "FFI_DRM_IOCTL_MODE_PAGE_FLIP",
   "FFI_DRM_IOCTL_MODE_GETPROPERTY",
   "FFI_DRM_IOCTL_MODE_SETPROPERTY",
   "FFI_DRM_IOCTL_MODE_OBJ_GETPROPERTIES",
   "FFI_DRM_IOCTL_MODE_OBJ_SETPROPERTY",
   "FFI_DRM_IOCTL_MODE_GETPROPBLOB",
   "FFI_DRM_IOCTL_MODE_CREATEPROPBLOB",
   "FFI_DRM_IOCTL_MODE_DESTROYPROPBLOB",
   "FFI_DRM_IOCTL_MODE_GETPLANERESOURCES",
   "FFI_DRM_IOCTL_MODE_GETPLANE",
   "FFI_DRM_IOCTL_MODE_SETPLANE"]

end DrmShimC

namespace Fourcc

/-- Representative constant names for each format family the specification
lists: packed RGB and RGBA variants at 8 bits (RGB332), 16 bits (RGB565 and
the 4444 alpha forms), 24 bits (RGB888) and 32 bits (XRGB8888, ARGB8888,
RGBA8888), planar YUV (YUV420, YUV444), semi-planar YUV (NV12, NV16), and
indexed color (C8). -/
def requiredFormatConstants : List String :=
  ["FFI_DRM_FORMAT_RGB332",
   "FFI_DRM_FORMAT_RGB565",
   "FFI_DRM_FORMAT_ARGB4444",
   "FFI_DRM_FORMAT_RGBA4444",
   "FFI_DRM_FORMAT_RGB888",
   "FFI_DRM_FORMAT_XRGB8888",
   "FFI_DRM_FORMAT_ARGB8888",
   "FFI_DRM_FORMAT_RGBA8888",
   "FFI_DRM_FORMAT_YUV420",
   "FFI_DRM_FORMAT_YUV444",
   "FFI_DRM_FORMAT_NV12",
   "FFI_DRM_FORMAT_NV16",
   "FFI_DRM_FORMAT_C8"]

end Fourcc


/-! ## Theorems -/

/-- Claim C1: evaluation of the shim at the failing constant.  Part_000's
hand-expanded MACRO_DRM_IOCTL_SET_CLIENT_CAP, written DRM_IO(0x0d), yields
0x640d, while the kernel header macro it re-exports, DRM_IOCTL_SET_CLIENT_CAP
= DRM_IOW(0x0d, struct drm_set_client_cap), yields 0x4010640d (the value
part_001 and drm-shim.c export); the two are not equal, so this constant of
the shim does not equal the kernel-level macro it re-exports. -/
theorem part000_set_client_cap_mismatches_kernel :
    Part000.DRM_IOCTL_SET_CLIENT_CAP = 0x640d ∧
    Kernel.DRM_IOCTL_SET_CLIENT_CAP = 0x4010640d ∧
    Part001.DRM_IOCTL_SET_CLIENT_CAP = Kernel.DRM_IOCTL_SET_CLIENT_CAP ∧
    DrmShimC.FFI_DRM_IOCTL_SET_CLIENT_CAP = Kernel.DRM_IOCTL_SET_CLIENT_CAP ∧
    Part000.DRM_IOCTL_SET_CLIENT_CAP ≠ Kernel.DRM_IOCTL_SET_CLIENT_CAP := by
  refine ⟨by decide, by decide, rfl, rfl, by decide⟩

/-- Claim C2 counterexample: the constant name MACRO_DRM_IOCTL_SET_CLIENT_CAP
is defined in both part_000 (as DRM_IO(0x0d)) and part_001 (as
DRM_IOW(0x0d, struct drm_set_client_cap)), and the two definitions evaluate
to different numeric values, refuting the claim that every multiply-defined
name evaluates to the same value in all its definitions. -/
theorem set_client_cap_differs_between_files :
    Part000.DRM_IOCTL_SET_CLIENT_CAP ≠ Part001.DRM_IOCTL_SET_CLIENT_CAP := by
  decide

/-- Claim C2 (amended): every command-code constant name defined in both
part_000 and part_001 evaluates to the same numeric value in both files,
except MACRO_DRM_IOCTL_SET_CLIENT_CAP: the master pair agrees, the whole
mode-setting block agrees name for name, and the client-cap constant
differs. -/
theorem duplicated_ioctl_names_agree_except_client_cap :
    Part000.DRM_IOCTL_SET_MASTER = Part001.DRM_IOCTL_SET_MASTER ∧
    Part000.DRM_IOCTL_DROP_MASTER = Part001.DRM_IOCTL_DROP_MASTER ∧
    Part000.modeTable = Part001.modeTable ∧
    Part000.DRM_IOCTL_SET_CLIENT_CAP ≠ Part001.DRM_IOCTL_SET_CLIENT_CAP := by
  refine ⟨rfl, rfl, rfl, by decide⟩

/-- Claim C3: the command-code table of drm-shim.c defines a numeric
constant for each operation the specification lists as covered; every name
in requiredOperationConstants (one constant per listed operation) resolves
in the table. -/
theorem ffi_table_covers_spec_operations :
    DrmShimC.requiredOperationConstants.all
      (fun n => (DrmShimC.ffiTable.lookup n).isSome) = true := by
  decide

/-- Claim C4: the pixel-format table defines a numeric tag for each format
family the specification lists — packed RGB/RGBA at 8, 16, 24 and 32 bits
per pixel, planar and semi-planar YUV, and indexed color; every
representative name in requiredFormatConstants resolves in the table. -/
theorem format_table_covers_spec_families :
    Fourcc.requiredFormatConstants.all
      (fun n => (Fourcc.formatTable.lookup n).isSome) = true := by
  decide

/-- Claim C10: within each constant table of the shim the mode-setting
ioctl command codes are pairwise distinct — the value lists of part_000's,
part_001's and drm-shim.c's mode-setting blocks each contain no duplicate —
and every such value carries a request number in the range 0xA0 to 0xBE in
its low byte. -/
theorem mode_ioctl_codes_pairwise_distinct :
    (Part000.modeTable.map Prod.snd).Nodup ∧
    (Part001.modeTable.map Prod.snd).Nodup ∧
    (DrmShimC.ffiModeTable.map Prod.snd).Nodup ∧
    (Part001.modeTable.map Prod.snd).all (fun v => 0xA0 ≤ v % 256 && v % 256 ≤ 0xBE)
      = true ∧
    (DrmShimC.ffiModeTable.map Prod.snd).all (fun v => 0xA0 ≤ v % 256 && v % 256 ≤ 0xBE)
      = true := by
  refine ⟨by decide, by decide, by decide, by decide, by decide⟩

/-- Claim C5: a test-only (validate-without-apply) atomic commit that the
device rejects returns InvalidCombination and leaves all display state
unchanged — the controller list after the call, and hence every
controller's active mode and assigned framebuffer, equals its value before
the call. -/
theorem atomic_test_only_reject_preserves_state
    (accepts : Core.AtomicRequest → Bool) (s : Core.DevState) (req : Core.AtomicRequest)
    (hm : s.masterHeld = true) (hrej : accepts req = false) :
    (Core.atomicCommit accepts s req true).2 = Except.error Core.Err.InvalidCombination ∧
    (Core.atomicCommit accepts s req true).1.controllers = s.controllers := by
  unfold Core.atomicCommit
  simp [hm, hrej]

/-- Witness for claim C5 at a concrete mastered state and a request every
proposal of which the fake device rejects. -/
theorem atomic_test_only_reject_preserves_state_witness :
    (Core.atomicCommit (fun _ => false) Core.demoState Core.demoRequest true).2
      = Except.error Core.Err.InvalidCombination ∧
    (Core.atomicCommit (fun _ => false) Core.demoState Core.demoRequest true).1.controllers
      = Core.demoState.controllers :=
  atomic_test_only_reject_preserves_state (fun _ => false) Core.demoState
    Core.demoRequest rfl rfl

/-- Claim C6: a set_controller call whose mode is not present (by exact
field match) in the target connector's mode list fails with UnsupportedMode
and issues zero requests on the control channel — the state, and in
particular the channel call count, is returned unchanged. -/
theorem set_controller_unsupported_mode_no_request
    (s : Core.DevState) (enc : Core.Encoder) (ctrlIds : List Nat) (crtcId fb : Nat)
    (conn : Core.Connector) (mode : Core.Mode)
    (hm : s.masterHeld = true)
    (henc : Core.encoderCanDrive enc.possibleCrtcs ctrlIds crtcId = true)
    (hmode : mode ∉ conn.modes) :
    Core.setController s enc ctrlIds crtcId fb conn mode
      = (s, Except.error Core.Err.UnsupportedMode) ∧
    (Core.setController s enc ctrlIds crtcId fb conn mode).1.callCount = s.callCount := by
  unfold Core.setController
  simp [hm, henc, hmode]

/-- Witness for claim C6 at a concrete mastered state, a compatible encoder
and a mode absent from the connector's single-mode list. -/
theorem set_controller_unsupported_mode_no_request_witness :
    Core.setController Core.demoState Core.demoEncoder [1] 1 5 Core.demoConnector
      Core.demoModeOther = (Core.demoState, Except.error Core.Err.UnsupportedMode) ∧
    (Core.setController Core.demoState Core.demoEncoder [1] 1 5 Core.demoConnector
      Core.demoModeOther).1.callCount = Core.demoState.callCount :=
  set_controller_unsupported_mode_no_request Core.demoState Core.demoEncoder [1] 1 5
    Core.demoConnector Core.demoModeOther rfl (by decide) (by decide)

/-- Helper for claim C7: enumeration yields exactly one result per reported
id. -/
theorem enumerateConnectors_length (live ids : List Nat) (fetch : Nat → Core.Connector) :
    (Core.enumerateConnectors live fetch ids).length = ids.length := by
  simp [Core.enumerateConnectors]

/-- Helper for claim C7: the successful results are exactly the still-valid
ids resolved, in the device's report order. -/
theorem enumerateConnectors_successes (live ids : List Nat) (fetch : Nat → Core.Connector) :
    (Core.enumerateConnectors live fetch ids).filterMap Except.toOption
      = (ids.filter (fun i => decide (i ∈ live))).map fetch := by
  induction ids with
  | nil => rfl
  | cons a as ih =>
    by_cases ha : a ∈ live <;>
      simp [Core.enumerateConnectors, Core.getConnector, ha, Except.toOption] at ih ⊢ <;>
      exact ih

/-- Helper for claim C7: each vanished id yields its own ObjectVanished
element — the count of such elements equals the count of reported ids no
longer valid. -/
theorem enumerateConnectors_vanished_count (live ids : List Nat)
    (fetch : Nat → Core.Connector) :
    ((Core.enumerateConnectors live fetch ids).countP
        (fun r => match r with
          | Except.error Core.Err.ObjectVanished => true
          | _ => false))
      = (ids.filter (fun i => decide (i ∉ live))).length := by
  induction ids with
  | nil => rfl
  | cons a as ih =>
    by_cases ha : a ∈ live <;>
      simp [Core.enumerateConnectors, Core.getConnector, ha, List.countP_cons] at ih ⊢ <;>
      exact ih

/-- Claim C7: in every enumeration sequence each vanished id yields a
per-element ObjectVanished error while the sequence continues (one result
per reported id, with as many ObjectVanished elements as vanished ids),
every still-valid id yields a success, and the successes appear in the
relative order of their ids in the device's report; in particular three
reported ids with id 2 removed yield exactly the two successes for ids 1
and 3, in order, around one ObjectVanished. -/
theorem connector_enumeration_skips_vanished :
    (∀ (live ids : List Nat) (fetch : Nat → Core.Connector),
      (Core.enumerateConnectors live fetch ids).length = ids.length ∧
      (Core.enumerateConnectors live fetch ids).filterMap Except.toOption
        = (ids.filter (fun i => decide (i ∈ live))).map fetch ∧
      ((Core.enumerateConnectors live fetch ids).countP
          (fun r => match r with
            | Except.error Core.Err.ObjectVanished => true
            | _ => false))
        = (ids.filter (fun i => decide (i ∉ live))).length) ∧
    Core.enumerateConnectors [1, 3] Core.demoFetch [1, 2, 3]
      = [Except.ok (Core.demoFetch 1), Except.error Core.Err.ObjectVanished,
         Except.ok (Core.demoFetch 3)] := by
  refine ⟨fun live ids fetch => ⟨enumerateConnectors_length live ids fetch,
    enumerateConnectors_successes live ids fetch,
    enumerateConnectors_vanished_count live ids fetch⟩, rfl⟩

/-- Claim C8: on a device whose master lock is already held, a second
master_lock acquisition fails with AlreadyMaster, changing nothing (the
acquisition is a single total request, so it cannot deadlock); after the
lock is released by the paired drop-master request, a retried acquisition
succeeds and the process is master again. -/
theorem master_lock_second_acquire_fails (s : Core.DevState)
    (h : s.masterHeld = true) :
    Core.masterLock s = (s, Except.error Core.Err.AlreadyMaster) ∧
    (Core.masterLock (Core.dropMaster s).1).2 = Except.ok () ∧
    (Core.masterLock (Core.dropMaster s).1).1.masterHeld = true := by
  unfold Core.masterLock Core.dropMaster
  simp [h]

/-- Witness for claim C8 at a concrete mastered state. -/
theorem master_lock_second_acquire_fails_witness :
    Core.masterLock Core.demoState = (Core.demoState, Except.error Core.Err.AlreadyMaster) ∧
    (Core.masterLock (Core.dropMaster Core.demoState).1).2 = Except.ok () ∧
    (Core.masterLock (Core.dropMaster Core.demoState).1).1.masterHeld = true :=
  master_lock_second_acquire_fails Core.demoState rfl

/-- Claim C9: for every valid allocation (positive width and height,
supported depth) on a well-formed state (live handles below the next fresh
handle), allocating a dumb buffer and then destroying it leaves no residual
handle accepted by a later map call — mapping the destroyed handle fails
with the defined MapFailed error. -/
theorem map_after_destroy_fails (s : Core.DevState) (w h bpp : Nat)
    (hwf : ∀ x ∈ s.liveHandles, x < s.nextHandle)
    (hw : 0 < w) (hh : 0 < h) (hbpp : Core.supportedBpp bpp = true) :
    ∃ hdl, (Core.allocateDumb s w h bpp).2 = Except.ok hdl ∧
      (Core.mapDumb (Core.destroyDumb (Core.allocateDumb s w h bpp).1 hdl).1 hdl).2
        = Except.error Core.Err.MapFailed := by
  have hnot : s.nextHandle ∉ s.liveHandles := fun hmem => Nat.lt_irrefl _ (hwf _ hmem)
  refine ⟨s.nextHandle, ?_, ?_⟩
  · simp [Core.allocateDumb, Nat.pos_iff_ne_zero.mp hw, Nat.pos_iff_ne_zero.mp hh, hbpp]
  · simp [Core.allocateDumb, Core.destroyDumb, Core.mapDumb,
          Nat.pos_iff_ne_zero.mp hw, Nat.pos_iff_ne_zero.mp hh, hbpp,
          List.erase_cons_head, hnot]

/-- Witness for claim C9: a 1920 by 1080 by 32 allocation on a fresh state,
destroyed and then mapped, yields MapFailed. -/
theorem map_after_destroy_fails_witness :
    ∃ hdl, (Core.allocateDumb Core.demoFreshState 1920 1080 32).2 = Except.ok hdl ∧
      (Core.mapDumb (Core.destroyDumb
          (Core.allocateDumb Core.demoFreshState 1920 1080 32).1 hdl).1 hdl).2
        = Except.error Core.Err.MapFailed :=
  map_after_destroy_fails Core.demoFreshState 1920 1080 32 (by simp [Core.demoFreshState])
    (by decide) (by decide) (by decide)
